import Mathlib

/-!
Verification of the analytics backend (`analytics` Django app) against its
natural-language specification.  The data model of `analytics/models.py`,
the permission predicate, queryset filters and `stats` aggregation of
`analytics/views.py`, and the nested event-creation routine of
`analytics/serializers.py` are shallowly embedded below.  Identities and
row ids are `Nat`; timestamps are whole seconds as `Int` (one day of
`timedelta(days=n)` is `n * 86400` seconds); averages are rationals.
-/

namespace Analytics

/-- `Project` (models.py:8-19): owner identity plus a many-to-many member
set.  The member set is a `Finset` because `members.add`/`members.remove`
have set semantics at the storage layer. -/
structure Project where
  id : Nat
  owner : Nat
  members : Finset Nat
  deriving DecidableEq

/-- `Session` (models.py:22-38): `end_time` is nullable, `start_time`
defaults to creation time. -/
structure Session where
  id : Nat
  projectId : Nat
  sessionKey : String
  startTime : Int
  endTime : Option Int
  deriving DecidableEq

/-- `Event` (models.py:41-63): belongs to a project, optionally to a
session, carries a type tag and a timestamp. -/
structure Event where
  id : Nat
  projectId : Nat
  sessionId : Option Nat
  eventType : String
  timestamp : Int
  deriving DecidableEq

/-- `UserPrompt` (models.py:66-75): 1:1 with its owning event. -/
structure UserPrompt where
  id : Nat
  eventId : Nat
  promptText : String
  modelName : String
  tokens : Int
  deriving DecidableEq

/-- `AIResponse` (models.py:78-89): the `prompt` foreign key is declared
with `null=True`, so it is an `Option`. -/
structure AIResponse where
  id : Nat
  eventId : Nat
  promptId : Option Nat
  responseText : String
  modelName : String
  tokens : Int
  latency : ℚ
  deriving DecidableEq

/-- `Feedback` (models.py:92-110): `rating` is nullable.  The `response`
foreign key (models.py:104) is declared WITHOUT `null=True`, so the stored
column is NOT NULL; a stored row always carries a response id. -/
structure Feedback where
  id : Nat
  eventId : Nat
  responseId : Nat
  rating : Option Int
  comment : String
  deriving DecidableEq

/-- The persistent store relevant to the claims: one list per table. -/
structure DB where
  projects : List Project
  sessions : List Session
  events : List Event
  prompts : List UserPrompt
  responses : List AIResponse
  feedbacks : List Feedback
  deriving DecidableEq

/-! ### Access policy (views.py:22-36, `IsOwnerOrReadOnly`) -/

/-- What `has_object_permission` inspects on the target object:
`hasattr(obj, 'owner')` is `owner.isSome`, `hasattr(obj, 'project')` is
`projectOwner.isSome` (holding that project's owner identity). -/
structure ObjPerm where
  owner : Option Nat
  projectOwner : Option Nat
  deriving DecidableEq

/-- `IsOwnerOrReadOnly.has_object_permission` (views.py:26-36): safe
(read) methods are always allowed; writes require the object's owner, or
the owning project's owner when the object exposes no owner; otherwise
deny. -/
def has_object_permission (isSafeMethod : Bool) (user : Nat) (obj : ObjPerm) : Bool :=
  if isSafeMethod then true
  else
    match obj.owner with
    | some o => o == user
    | none =>
      match obj.projectOwner with
      | some po => po == user
      | none => false

/-- A `Project` row as seen by the permission check: it exposes an
`owner` attribute and no `project` attribute. -/
def Project.asObj (p : Project) : ObjPerm :=
  { owner := some p.owner, projectOwner := none }

/-- A project-scoped dependent row (Session/Event/Tag/Dashboard) as seen
by the permission check: no `owner` attribute, but a `project` attribute
resolving to `p`. -/
def dependentObj (p : Project) : ObjPerm :=
  { owner := none, projectOwner := some p.owner }

/-! ### Membership actions (views.py:61-81) -/

inductive ApiStatus where
  | ok
  | notFound
  deriving DecidableEq

/-- Whether `User.objects.get(id=user_id)` succeeds: the id is present
and names a known identity (views.py:65-66). -/
def resolvesUser (knownUsers : Finset Nat) (userId : Option Nat) : Bool :=
  match userId with
  | some u => decide (u ∈ knownUsers)
  | none => false

/-- `ProjectViewSet.add_member` (views.py:61-70): resolve the user, 404
if unknown, otherwise `members.add` (set insertion). -/
def add_member (knownUsers : Finset Nat) (p : Project) (userId : Option Nat) :
    Project × ApiStatus :=
  match userId with
  | some u =>
    if u ∈ knownUsers then ({ p with members := insert u p.members }, .ok)
    else (p, .notFound)
  | none => (p, .notFound)

/-- `ProjectViewSet.remove_member` (views.py:72-81): resolve the user,
404 if unknown, otherwise `members.remove` (set erasure). -/
def remove_member (knownUsers : Finset Nat) (p : Project) (userId : Option Nat) :
    Project × ApiStatus :=
  match userId with
  | some u =>
    if u ∈ knownUsers then ({ p with members := p.members.erase u }, .ok)
    else (p, .notFound)
  | none => (p, .notFound)

/-! ### Session duration and end_session (models.py:35-38, views.py:166-174) -/

/-- `Session.duration` (models.py:35-38): `(end_time - start_time).total_seconds()`
when `end_time` is set, else `None`. -/
def Session.duration (s : Session) : Option Int :=
  match s.endTime with
  | some e => some (e - s.startTime)
  | none => none

/-- `SessionViewSet.end_session` (views.py:166-174): unconditionally sets
`end_time` to the current time and saves. -/
def end_session (s : Session) (now : Int) : Session :=
  { s with endTime := some now }

/-! ### Endpoint authentication (views.py permission_classes) -/

inductive PermClass where
  | isAuthenticated
  | isOwnerOrReadOnly
  deriving DecidableEq, BEq

inductive Endpoint where
  | projects
  | sessions
  | events
  | prompts
  | responses
  | feedbacks
  | tags
  | dashboards
  | widgets
  | users
  deriving DecidableEq

/-- The `permission_classes` of each viewset, transcribed from views.py
(lines 45, 141, 192, 233, 267, 301, 335, 361, 387, 413). -/
def permission_classes : Endpoint → List PermClass
  | .projects => [.isAuthenticated, .isOwnerOrReadOnly]
  | .sessions => [.isAuthenticated, .isOwnerOrReadOnly]
  | .events => [.isAuthenticated, .isOwnerOrReadOnly]
  | .prompts => [.isAuthenticated, .isOwnerOrReadOnly]
  | .responses => [.isAuthenticated, .isOwnerOrReadOnly]
  | .feedbacks => [.isAuthenticated, .isOwnerOrReadOnly]
  | .tags => [.isAuthenticated, .isOwnerOrReadOnly]
  | .dashboards => [.isAuthenticated, .isOwnerOrReadOnly]
  | .widgets => [.isAuthenticated, .isOwnerOrReadOnly]
  | .users => [.isAuthenticated]

/-- An endpoint rejects unauthenticated requests before any handler runs
exactly when `IsAuthenticated` is among its permission classes. -/
def requiresAuthenticatedIdentity (e : Endpoint) : Bool :=
  (permission_classes e).contains .isAuthenticated

/-! ### Visibility / query filter layer (views.py get_queryset methods) -/

/-- Foreign-key resolution of a project id against the project table. -/
def findProject (db : DB) (pid : Nat) : Option Project :=
  db.projects.find? (fun p => p.id == pid)

/-- Foreign-key resolution of an event id against the event table (the
ORM join `event__...`). -/
def findEvent (db : DB) (eid : Nat) : Option Event :=
  db.events.find? (fun e => e.id == eid)

/-- The access restriction `Q(project__owner=user) | Q(project__members=user)`
applied to an event (views.py:223-224): the event's project resolves and
has the acting user as owner or as a member. -/
def eventAccess (db : DB) (user : Nat) (e : Event) : Bool :=
  match findProject db e.projectId with
  | some p => p.owner == user || decide (user ∈ p.members)
  | none => false

/-- The access restriction `Q(event__project__owner=user) |
Q(event__project__members=user)` applied to a feedback row
(views.py:323-326): join to the owning event, then to its project. -/
def feedbackAccess (db : DB) (user : Nat) (f : Feedback) : Bool :=
  match findEvent db f.eventId with
  | some e => eventAccess db user e
  | none => false

/-- `EventViewSet.get_queryset` (views.py:201-224): start from all
events, narrow by each supplied query parameter (project, session,
event_type), then apply the non-overridable access restriction and
`distinct()`.  An absent parameter (`None` or an empty, falsy string)
imposes no restriction. -/
def event_get_queryset (db : DB) (user : Nat)
    (projectParam : Option Nat) (sessionParam : Option Nat)
    (typeParam : Option String) : List Event :=
  let q : List Event := db.events
  let q : List Event := match projectParam with
    | some pid => q.filter (fun e => e.projectId == pid)
    | none => q
  let q : List Event := match sessionParam with
    | some sid => q.filter (fun e => e.sessionId == some sid)
    | none => q
  let q : List Event := match typeParam with
    | some t => q.filter (fun e => e.eventType == t)
    | none => q
  q.filter (eventAccess db user)

/-- `FeedbackViewSet.get_queryset` (views.py:306-326): narrow by project
(via the owning event) and by rating, then apply the access restriction.
A `rating` filter matches only rows whose rating equals it; null-rated
rows never match a supplied rating filter. -/
def feedback_get_queryset (db : DB) (user : Nat)
    (projectParam : Option Nat) (ratingParam : Option Int) : List Feedback :=
  let q : List Feedback := db.feedbacks
  let q : List Feedback := match projectParam with
    | some pid => q.filter (fun f =>
        match findEvent db f.eventId with
        | some e => e.projectId == pid
        | none => false)
    | none => q
  let q : List Feedback := match ratingParam with
    | some r => q.filter (fun f => f.rating == some r)
    | none => q
  q.filter (feedbackAccess db user)

/-- The conjunction of the caller-supplied equality filters of
`EventViewSet.get_queryset`, each absent filter imposing no
restriction. -/
def matchesEventFilters (projectParam : Option Nat) (sessionParam : Option Nat)
    (typeParam : Option String) (e : Event) : Bool :=
  (match projectParam with | some pid => e.projectId == pid | none => true) &&
  (match sessionParam with | some sid => e.sessionId == some sid | none => true) &&
  (match typeParam with | some t => e.eventType == t | none => true)

/-- The conjunction of the caller-supplied equality filters of
`FeedbackViewSet.get_queryset`. -/
def matchesFeedbackFilters (db : DB) (projectParam : Option Nat)
    (ratingParam : Option Int) (f : Feedback) : Bool :=
  (match projectParam with
   | some pid =>
     match findEvent db f.eventId with
     | some e => e.projectId == pid
     | none => false
   | none => true) &&
  (match ratingParam with | some r => f.rating == some r | none => true)

/-! ### Stats aggregation (views.py:83-132, `ProjectViewSet.stats`) -/

/-- `start_date = timezone.now() - timedelta(days=days)` (views.py:92),
in seconds.  A negative `days` places the cutoff in the future. -/
def statsCutoff (now : Int) (days : Int) : Int :=
  now - days * 86400

/-- The event window test `project=project, timestamp__gte=start_date`
(views.py:95).  Note: a lower bound only, no upper bound at `now`. -/
def eventInWindow (pid : Nat) (cut : Int) (e : Event) : Bool :=
  e.projectId == pid && decide (cut ≤ e.timestamp)

/-- The joined window test `event__project=project,
event__timestamp__gte=start_date` used for prompts, responses and
feedback (views.py:102,107,113): resolve the owning event and test it. -/
def viaEventInWindow (db : DB) (pid : Nat) (cut : Int) (eid : Nat) : Bool :=
  match findEvent db eid with
  | some e => eventInWindow pid cut e
  | none => false

/-- The session window test `project=project, start_time__gte=start_date`
(views.py:118). -/
def sessionInWindow (pid : Nat) (cut : Int) (s : Session) : Bool :=
  s.projectId == pid && decide (cut ≤ s.startTime)

/-- Django `Avg` over the non-null values followed by `or 0`
(views.py:104,109,110,115): `Avg` skips SQL NULLs and yields NULL when no
non-null value contributes, which `or 0` turns into 0. -/
def avgOrZero (xs : List Int) : ℚ :=
  if xs.length = 0 then 0 else (xs.sum : ℚ) / (xs.length : ℚ)

/-- `Avg` over rational values (latency) followed by `or 0`. -/
def avgOrZeroRat (xs : List ℚ) : ℚ :=
  if xs.length = 0 then 0 else xs.sum / (xs.length : ℚ)

/-- The response body of `ProjectViewSet.stats` (views.py:121-132),
minus the per-type breakdown. -/
structure StatsResult where
  total_events : Nat
  total_prompts : Nat
  avg_prompt_tokens : ℚ
  total_responses : Nat
  avg_response_tokens : ℚ
  avg_latency : ℚ
  total_feedback : Nat
  avg_rating : ℚ
  total_sessions : Nat
  deriving DecidableEq

/-- `ProjectViewSet.stats` (views.py:83-132) for a resolved project and a
parsed `days` value: filter each table by the window, count, and average
with the `or 0` fallback.  `avg_rating` averages the non-null ratings
only (SQL `Avg` ignores NULL), while `total_feedback` counts every row. -/
def projectStats (db : DB) (pid : Nat) (now : Int) (days : Int) : StatsResult :=
  let cut := statsCutoff now days
  let evs := db.events.filter (eventInWindow pid cut)
  let ps := db.prompts.filter (fun p => viaEventInWindow db pid cut p.eventId)
  let rs := db.responses.filter (fun r => viaEventInWindow db pid cut r.eventId)
  let fbs := db.feedbacks.filter (fun f => viaEventInWindow db pid cut f.eventId)
  let ss := db.sessions.filter (sessionInWindow pid cut)
  { total_events := evs.length
    total_prompts := ps.length
    avg_prompt_tokens := avgOrZero (ps.map (·.tokens))
    total_responses := rs.length
    avg_response_tokens := avgOrZero (rs.map (·.tokens))
    avg_latency := avgOrZeroRat (rs.map (·.latency))
    total_feedback := fbs.length
    avg_rating := avgOrZero (fbs.filterMap (·.rating))
    total_sessions := ss.length }

/-- Run of decimal digits to a number; fails on an empty run or on any
non-digit character. -/
def parseDigits (cs : List Char) : Option Nat :=
  match cs with
  | [] => none
  | _ =>
    cs.foldl
      (fun acc c =>
        acc.bind (fun n => if c.isDigit then some (10 * n + (c.toNat - 48)) else none))
      (some 0)

/-- Python's `int(s)` on a query-parameter string (views.py:91): strips
surrounding whitespace, accepts an optional sign followed by digits, and
raises `ValueError` (here `none`) on anything else — no range check. -/
def pyInt (s : String) : Option Int :=
  let cs := ((s.data.dropWhile (·.isWhitespace)).reverse.dropWhile (·.isWhitespace)).reverse
  match cs with
  | '-' :: rest => (parseDigits rest).map (fun n => -(n : Int))
  | '+' :: rest => (parseDigits rest).map (fun n => (n : Int))
  | _ => (parseDigits cs).map (fun n => (n : Int))

/-- Outcome of the `stats` action as seen by the caller: a normal
response, or an unhandled exception (no field-level validation error is
ever produced for `days`). -/
inductive StatsOutcome where
  | ok (r : StatsResult)
  | unhandledError
  deriving DecidableEq

/-- The `stats` entry point (views.py:88-92 onward): read the `days`
query parameter, defaulting to 30 when absent, convert it with a bare
`int(...)` — an unparsable value raises an uncaught `ValueError` — and
aggregate.  No rejection of negative values. -/
def statsEndpoint (db : DB) (pid : Nat) (now : Int)
    (daysParam : Option String) : StatsOutcome :=
  let days : Option Int :=
    match daysParam with
    | none => some 30
    | some s => pyInt s
  match days with
  | none => .unhandledError
  | some d => .ok (projectStats db pid now d)

/-! ### Nested event creation (serializers.py:105-137, `EventCreateSerializer.create`) -/

/-- The nested `user_prompt` sub-document (`UserPromptCreateSerializer`,
serializers.py:87-90). -/
structure UserPromptData where
  promptText : String
  modelName : String
  tokens : Int
  deriving DecidableEq

/-- The nested `ai_response` sub-document (`AIResponseCreateSerializer`,
serializers.py:93-96). -/
structure AIResponseData where
  responseText : String
  modelName : String
  tokens : Int
  latency : ℚ
  deriving DecidableEq

/-- The nested `feedback` sub-document (`FeedbackCreateSerializer`,
serializers.py:99-102; the opaque `tags` list is omitted). -/
structure FeedbackData where
  rating : Option Int
  comment : String
  deriving DecidableEq

/-- The validated payload of `EventCreateSerializer` (serializers.py:105-113):
the event fields plus up to three optional sub-documents. -/
structure EventCreateData where
  projectId : Nat
  sessionId : Option Nat
  eventType : String
  timestamp : Int
  user_prompt : Option UserPromptData
  ai_response : Option AIResponseData
  feedback : Option FeedbackData
  deriving DecidableEq

/-- `EventCreateSerializer.create` (serializers.py:115-137).  The method
body is a plain sequence of ORM `create` calls with NO `transaction.atomic`
wrapper, so each insert commits as it happens.  Fresh primary keys are
`nid`, `nid+1`, `nid+2`, `nid+3`.  Order: the Event row first; then the
UserPrompt if present; then the AIResponse if present, its `prompt` link
set to the just-created prompt (`event.user_prompt`, line 128) exactly
when a prompt was bundled; then the Feedback if present, its `response`
link set to the just-created response exactly when a response was
bundled.  When no response was bundled the code passes `response=None`
(lines 131-135), but the `Feedback.response` column is NOT NULL
(models.py:104), so that insert raises `IntegrityError` — and the rows
already inserted remain in the store. -/
def eventCreate (db : DB) (nid : Nat) (d : EventCreateData) :
    DB × Except String Nat :=
  let ev : Event :=
    { id := nid, projectId := d.projectId, sessionId := d.sessionId,
      eventType := d.eventType, timestamp := d.timestamp }
  let db := { db with events := db.events ++ [ev] }
  let db :=
    match d.user_prompt with
    | some up =>
      { db with prompts := db.prompts ++
          [{ id := nid + 1, eventId := nid, promptText := up.promptText,
             modelName := up.modelName, tokens := up.tokens }] }
    | none => db
  let db :=
    match d.ai_response with
    | some ar =>
      let promptLink : Option Nat :=
        if d.user_prompt.isSome then some (nid + 1) else none
      { db with responses := db.responses ++
          [{ id := nid + 2, eventId := nid, promptId := promptLink,
             responseText := ar.responseText, modelName := ar.modelName,
             tokens := ar.tokens, latency := ar.latency }] }
    | none => db
  match d.feedback with
  | some fb =>
    if d.ai_response.isSome then
      ({ db with feedbacks := db.feedbacks ++
          [{ id := nid + 3, eventId := nid, responseId := nid + 2,
             rating := fb.rating, comment := fb.comment }] }, .ok nid)
    else
      (db, .error "IntegrityError: NOT NULL constraint failed: feedback.response")
  | none => (db, .ok nid)

/-! ### Spec-side comparison definition and concrete instances -/

/-- Modelled from the spec's words, for comparison with `eventInWindow`
only: the claimed closed aggregation window `[now - days, now]` with both
a lower and an upper bound. -/
def specClosedWindow (pid : Nat) (now days : Int) (e : Event) : Bool :=
  e.projectId == pid && decide (now - days * 86400 ≤ e.timestamp) &&
    decide (e.timestamp ≤ now)

/-- An empty store. -/
def emptyDB : DB := ⟨[], [], [], [], [], []⟩

/-- An event stamped in the future relative to `now = 1000`. -/
def futureEvent : Event := ⟨1, 1, none, "other", 1010⟩

/-- An event stamped in the past relative to `now = 1000`. -/
def pastEvent : Event := ⟨2, 1, none, "other", 900⟩

/-- A store holding only the future-stamped event. -/
def dbFuture : DB := ⟨[], [], [futureEvent], [], [], []⟩

/-- A create payload bundling a Feedback sub-document with no nested
AIResponse. -/
def payloadFb : EventCreateData :=
  { projectId := 1, sessionId := none, eventType := "user_feedback",
    timestamp := 0, user_prompt := none, ai_response := none,
    feedback := some { rating := some 4, comment := "ok" } }

/-- A project owned by identity 10 whose member set is exactly 20. -/
def projA : Project := ⟨1, 10, {20}⟩

/-- A session that has not ended. -/
def sessA : Session := ⟨3, 1, "key-a", 100, none⟩

/-- An in-window event for the stats examples (`now = 1000`, `days = 30`). -/
def eventC6 : Event := ⟨5, 1, none, "user_feedback", 500⟩

/-- A store with one event and nothing else. -/
def dbC6 : DB := ⟨[], [], [eventC6], [], [], []⟩

/-- A feedback row on `eventC6` whose rating is null. -/
def fbNull : Feedback := ⟨9, 5, 7, none, "ok"⟩

/-- A store where `projA` owns `eventC6` and the feedback row `fbNull`
hangs off that event, for exercising the querysets. -/
def dbAcc : DB := ⟨[projA], [], [eventC6], [], [], [fbNull]⟩

/-! ## Theorems -/

/-- C3: a write on an object is permitted iff the object exposes an owner
equal to the acting identity, or exposes no owner but a project whose
owner is the acting identity; reads are always permitted at this layer;
in particular a project member who is not the owner is denied every write
on the project and on its project-scoped dependents while reads go
through. -/
theorem write_permission_iff_owner (u : Nat) (obj : ObjPerm) (p : Project)
    (m : Nat) (hm : m ∈ p.members) (hno : m ≠ p.owner) :
    (has_object_permission false u obj = true ↔
      ((∃ o, obj.owner = some o ∧ o = u) ∨
        (obj.owner = none ∧ ∃ po, obj.projectOwner = some po ∧ po = u)))
    ∧ has_object_permission true u obj = true
    ∧ has_object_permission false m p.asObj = false
    ∧ has_object_permission false m (dependentObj p) = false
    ∧ has_object_permission true m p.asObj = true := by
  have hne : p.owner ≠ m := fun h => hno h.symm
  refine ⟨?_, rfl, ?_, ?_, rfl⟩
  · cases hown : obj.owner with
    | some o =>
      simp [has_object_permission, hown, beq_iff_eq]
    | none =>
      cases hproj : obj.projectOwner with
      | some po =>
        simp [has_object_permission, hown, hproj, beq_iff_eq]
      | none =>
        simp [has_object_permission, hown, hproj]
  · simp [has_object_permission, Project.asObj, hne]
  · simp [has_object_permission, dependentObj, hne]

/-- Witness for C3 at the concrete project `projA`, member 20, owner
10. -/
theorem write_permission_iff_owner_witness :
    has_object_permission false 20 (Project.asObj projA) = false
    ∧ has_object_permission false 20 (dependentObj projA) = false
    ∧ has_object_permission true 20 (Project.asObj projA) = true
    ∧ has_object_permission false 10 (Project.asObj projA) = true := by
  have h := write_permission_iff_owner 10 (Project.asObj projA) projA 20
    (by decide) (by decide)
  exact ⟨h.2.2.1, h.2.2.2.1, h.2.2.2.2,
    h.1.mpr (Or.inl ⟨10, rfl, rfl⟩)⟩

/-- C7: `add_member`/`remove_member` answer NotFound exactly when the
supplied user id resolves to no known identity (and then leave the
project unchanged); a second `add_member` of the same user changes
nothing (member set and its size unchanged); `remove_member` of a
resolved non-member succeeds as a no-op. -/
theorem membership_actions_idempotent (knownUsers : Finset Nat)
    (p : Project) (uid : Option Nat) (u v : Nat)
    (hu : u ∈ knownUsers) (hv : v ∈ knownUsers) (hvm : v ∉ p.members) :
    ((add_member knownUsers p uid).2 = .notFound ↔
      resolvesUser knownUsers uid = false)
    ∧ ((remove_member knownUsers p uid).2 = .notFound ↔
      resolvesUser knownUsers uid = false)
    ∧ ((add_member knownUsers p uid).2 = .notFound →
      (add_member knownUsers p uid).1 = p)
    ∧ (add_member knownUsers
        (add_member knownUsers p (some u)).1 (some u)).1.members =
      (add_member knownUsers p (some u)).1.members
    ∧ (add_member knownUsers
        (add_member knownUsers p (some u)).1 (some u)).1.members.card =
      (add_member knownUsers p (some u)).1.members.card
    ∧ (remove_member knownUsers p (some v)).1 = p
    ∧ (remove_member knownUsers p (some v)).2 = .ok := by
  refine ⟨?_, ?_, ?_, ?_, ?_, ?_, ?_⟩
  · cases uid with
    | some w =>
      by_cases hw : w ∈ knownUsers <;>
        simp [add_member, resolvesUser, hw]
    | none => simp [add_member, resolvesUser]
  · cases uid with
    | some w =>
      by_cases hw : w ∈ knownUsers <;>
        simp [remove_member, resolvesUser, hw]
    | none => simp [remove_member, resolvesUser]
  · cases uid with
    | some w =>
      by_cases hw : w ∈ knownUsers <;> simp [add_member, hw]
    | none => simp [add_member]
  · simp [add_member, hu, Finset.insert_idem]
  · simp [add_member, hu, Finset.insert_idem]
  · cases p with
    | mk i o ms =>
      simp [remove_member, hv]
      exact hvm
  · simp [remove_member, hv]

/-- Witness for C7: known identities 10 and 20, project `projA` (member
set exactly 20), adding 20 twice and removing the non-member 10. -/
theorem membership_actions_idempotent_witness :
    ((add_member {10, 20} projA (some 7)).2 = .notFound ↔
      resolvesUser {10, 20} (some 7) = false)
    ∧ (add_member {10, 20}
        (add_member {10, 20} projA (some 20)).1 (some 20)).1.members.card =
      (add_member {10, 20} projA (some 20)).1.members.card
    ∧ (remove_member {10, 20} projA (some 10)).1 = projA
    ∧ (remove_member {10, 20} projA (some 10)).2 = .ok := by
  have h := membership_actions_idempotent {10, 20} projA (some 7) 20 10
    (by decide) (by decide) (by decide)
  exact ⟨h.1, h.2.2.2.2.1, h.2.2.2.2.2.1, h.2.2.2.2.2.2⟩

/-- C8: `duration` is `None` (undefined), not zero, while `end_time` is
unset; `end_session` sets `end_time` to the given now, a repeated call
simply overwriting it; afterwards `duration` is exactly
`end_time - start_time` in seconds. -/
theorem session_duration_spec (s : Session) (now t1 t2 : Int)
    (h : s.endTime = none) :
    Session.duration s = none
    ∧ Session.duration (end_session s now) = some (now - s.startTime)
    ∧ end_session (end_session s t1) t2 = end_session s t2 := by
  refine ⟨?_, rfl, rfl⟩
  simp [Session.duration, h]

/-- Witness for C8 at the un-ended session `sessA`. -/
theorem session_duration_spec_witness :
    Session.duration sessA = none
    ∧ Session.duration (end_session sessA 250) = some 150
    ∧ end_session (end_session sessA 180) 250 = end_session sessA 250 := by
  have h := session_duration_spec sessA 250 180 250 (by decide)
  exact ⟨h.1, h.2.1, h.2.2⟩

/-- C9, counterexample: the claim exempts the read-only users search
endpoint from authentication (it would have
`requiresAuthenticatedIdentity .users = false`), but its
`permission_classes` (views.py:413) contain `IsAuthenticated`, so the
endpoint does demand an authenticated identity — the negation of the
claimed exception. -/
theorem users_endpoint_requires_auth_cx :
    requiresAuthenticatedIdentity Endpoint.users = true := by
  decide

/-- C9, amended: every endpoint — the read-only users search endpoint
included — rejects a request carrying no authenticated identity before
business logic runs; there is no exception. -/
theorem all_endpoints_require_auth :
    ∀ epn : Endpoint, requiresAuthenticatedIdentity epn = true := by
  intro epn
  cases epn <;> rfl

/-- C4: a row is in the listed result set iff it is a stored row whose
resolved project has the acting identity as owner or member (the access
restriction) and it matches every caller-supplied equality filter, each
absent filter imposing no restriction and supplied filters composing by
conjunction; consequently no filter combination yields a row outside the
access restriction.  Shown for the Event queryset (project, session,
event-type filters) and the Feedback queryset (project, rating
filters). -/
theorem queryset_access_and_filters (db : DB) (u : Nat)
    (pf sf : Option Nat) (tf : Option String) (rf : Option Int)
    (e : Event) (f : Feedback) :
    (e ∈ event_get_queryset db u pf sf tf ↔
      e ∈ db.events ∧ matchesEventFilters pf sf tf e = true ∧
        eventAccess db u e = true)
    ∧ (e ∈ event_get_queryset db u pf sf tf → eventAccess db u e = true)
    ∧ (f ∈ feedback_get_queryset db u pf rf ↔
      f ∈ db.feedbacks ∧ matchesFeedbackFilters db pf rf f = true ∧
        feedbackAccess db u f = true)
    ∧ (f ∈ feedback_get_queryset db u pf rf → feedbackAccess db u f = true) := by
  have he : e ∈ event_get_queryset db u pf sf tf ↔
      e ∈ db.events ∧ matchesEventFilters pf sf tf e = true ∧
        eventAccess db u e = true := by
    cases pf <;> cases sf <;> cases tf <;>
      simp [event_get_queryset, matchesEventFilters, List.mem_filter,
        Bool.and_eq_true] <;>
      tauto
  have hf : f ∈ feedback_get_queryset db u pf rf ↔
      f ∈ db.feedbacks ∧ matchesFeedbackFilters db pf rf f = true ∧
        feedbackAccess db u f = true := by
    cases pf <;> cases rf <;>
      simp [feedback_get_queryset, matchesFeedbackFilters, List.mem_filter,
        Bool.and_eq_true] <;>
      tauto
  exact ⟨he, fun h => (he.mp h).2.2, hf, fun h => (hf.mp h).2.2⟩

/-- Witness for C4: in `dbAcc` the owner (identity 10) sees the event
and the feedback with no filters supplied, and both rows pass the access
restriction. -/
theorem queryset_access_and_filters_witness :
    eventC6 ∈ event_get_queryset dbAcc 10 none none none
    ∧ eventAccess dbAcc 10 eventC6 = true
    ∧ fbNull ∈ feedback_get_queryset dbAcc 10 none none
    ∧ feedbackAccess dbAcc 10 fbNull = true := by
  have h := queryset_access_and_filters dbAcc 10 none none none none eventC6 fbNull
  have hme : eventC6 ∈ event_get_queryset dbAcc 10 none none none :=
    h.1.mpr ⟨by decide, by decide, by decide⟩
  have hmf : fbNull ∈ feedback_get_queryset dbAcc 10 none none :=
    h.2.2.1.mpr ⟨by decide, by decide, by decide⟩
  exact ⟨hme, h.2.1 hme, hmf, h.2.2.2 hmf⟩

/-- C5, counterexample: with `now = 1000` and `days = 30`, the stored
event stamped at 1010 — strictly after `now` — is counted by the code
(`timestamp__gte` only, views.py:95), whereas the claimed closed window
`[now - days, now]` contains no stored event. -/
theorem stats_window_upper_bound_missing :
    (projectStats dbFuture 1 1000 30).total_events = 1
    ∧ (dbFuture.events.filter (specClosedWindow 1 1000 30)).length = 0 := by
  exact ⟨rfl, rfl⟩

/-- C5, amended: stats aggregates exactly the entities of the project
whose relevant timestamp is at least `now - days` — a lower bound only,
with no upper bound at `now`, so future-stamped entities are included;
with `days = 0` every entity timestamped strictly in the past is still
excluded. -/
theorem stats_window_lower_bound_only (db : DB) (pid : Nat)
    (now days : Int) (e : Event) (s : Session) (eid : Nat) :
    ((projectStats db pid now days).total_events =
      (db.events.filter (eventInWindow pid (statsCutoff now days))).length)
    ∧ (eventInWindow pid (statsCutoff now days) e = true ↔
        e.projectId = pid ∧ now - days * 86400 ≤ e.timestamp)
    ∧ (sessionInWindow pid (statsCutoff now days) s = true ↔
        s.projectId = pid ∧ now - days * 86400 ≤ s.startTime)
    ∧ (viaEventInWindow db pid (statsCutoff now days) eid = true ↔
        ∃ ev, findEvent db eid = some ev ∧ ev.projectId = pid ∧
          now - days * 86400 ≤ ev.timestamp)
    ∧ (e.timestamp < now → eventInWindow pid (statsCutoff now 0) e = false)
    ∧ (s.startTime < now → sessionInWindow pid (statsCutoff now 0) s = false) := by
  refine ⟨rfl, ?_, ?_, ?_, ?_, ?_⟩
  · simp [eventInWindow, statsCutoff, Bool.and_eq_true, beq_iff_eq,
      decide_eq_true_eq]
  · simp [sessionInWindow, statsCutoff, Bool.and_eq_true, beq_iff_eq,
      decide_eq_true_eq]
  · cases hfe : findEvent db eid with
    | some ev =>
      simp [viaEventInWindow, hfe, eventInWindow, statsCutoff,
        Bool.and_eq_true, beq_iff_eq, decide_eq_true_eq]
    | none => simp [viaEventInWindow, hfe]
  · intro h
    have hlt : ¬ (statsCutoff now 0 ≤ e.timestamp) := by
      simp only [statsCutoff]
      omega
    simp [eventInWindow, hlt]
  · intro h
    have hlt : ¬ (statsCutoff now 0 ≤ s.startTime) := by
      simp only [statsCutoff]
      omega
    simp [sessionInWindow, hlt]

/-- Witness for the amended C5: the past-stamped event and the session
started in the past are both excluded when `days = 0` at `now = 1000`,
and the total-events field is the windowed count. -/
theorem stats_window_lower_bound_only_witness :
    (projectStats dbFuture 1 1000 30).total_events =
      (dbFuture.events.filter (eventInWindow 1 (statsCutoff 1000 30))).length
    ∧ eventInWindow 1 (statsCutoff 1000 0) pastEvent = false
    ∧ sessionInWindow 1 (statsCutoff 1000 0) sessA = false := by
  have h := stats_window_lower_bound_only dbFuture 1 1000 30 pastEvent sessA 1
  exact ⟨h.1, h.2.2.2.2.1 (by decide), h.2.2.2.2.2 (by decide)⟩

/-- Changing only the feedback table leaves the event join of the window
test unchanged. -/
theorem viaEventInWindow_update_feedbacks (db : DB) (l : List Feedback)
    (pid : Nat) (cut : Int) (eid : Nat) :
    viaEventInWindow { db with feedbacks := l } pid cut eid =
      viaEventInWindow db pid cut eid := rfl

/-- C6: adding an in-window feedback row with a null rating increments
`total_feedback` but leaves `avg_rating` unchanged (SQL `Avg` skips
NULLs while `count` does not); and every average field is exactly 0
whenever its count of contributing rows is 0 — no prompts, no responses,
or no non-null ratings respectively. -/
theorem stats_feedback_null_rating_and_zero_averages (db : DB)
    (pid : Nat) (now days : Int) (f : Feedback)
    (hf : viaEventInWindow db pid (statsCutoff now days) f.eventId = true)
    (hr : f.rating = none) :
    ((projectStats { db with feedbacks := f :: db.feedbacks } pid now days).total_feedback
      = (projectStats db pid now days).total_feedback + 1)
    ∧ ((projectStats { db with feedbacks := f :: db.feedbacks } pid now days).avg_rating
      = (projectStats db pid now days).avg_rating)
    ∧ ((projectStats db pid now days).total_prompts = 0 →
        (projectStats db pid now days).avg_prompt_tokens = 0)
    ∧ ((projectStats db pid now days).total_responses = 0 →
        (projectStats db pid now days).avg_response_tokens = 0
        ∧ (projectStats db pid now days).avg_latency = 0)
    ∧ ((db.feedbacks.filter
          (fun g => viaEventInWindow db pid (statsCutoff now days) g.eventId)).filterMap
            (fun g => g.rating) = [] →
        (projectStats db pid now days).avg_rating = 0) := by
  refine ⟨?_, ?_, ?_, ?_, ?_⟩
  · simp [projectStats, viaEventInWindow_update_feedbacks,
      List.filter_cons, hf]
  · simp [projectStats, viaEventInWindow_update_feedbacks,
      List.filter_cons, hf, List.filterMap_cons, hr]
  · intro h0
    simp only [projectStats] at h0 ⊢
    rw [List.length_eq_zero] at h0
    simp [h0, avgOrZero]
  · intro h0
    simp only [projectStats] at h0 ⊢
    rw [List.length_eq_zero] at h0
    constructor <;> simp [h0, avgOrZero, avgOrZeroRat]
  · intro h5
    simp only [projectStats]
    simp [avgOrZero, h5]

/-- Witness for C6: one in-window event, adding the null-rated feedback
row `fbNull` to the otherwise empty store. -/
theorem stats_feedback_null_rating_and_zero_averages_witness :
    ((projectStats { dbC6 with feedbacks := fbNull :: dbC6.feedbacks } 1 1000 30).total_feedback
      = (projectStats dbC6 1 1000 30).total_feedback + 1)
    ∧ ((projectStats { dbC6 with feedbacks := fbNull :: dbC6.feedbacks } 1 1000 30).avg_rating
      = (projectStats dbC6 1 1000 30).avg_rating)
    ∧ (projectStats dbC6 1 1000 30).avg_prompt_tokens = 0
    ∧ (projectStats dbC6 1 1000 30).avg_response_tokens = 0
    ∧ (projectStats dbC6 1 1000 30).avg_latency = 0
    ∧ (projectStats dbC6 1 1000 30).avg_rating = 0 := by
  have h := stats_feedback_null_rating_and_zero_averages dbC6 1 1000 30 fbNull
    (by decide) rfl
  have h4 := h.2.2.2.1 (by decide)
  exact ⟨h.1, h.2.1, h.2.2.1 (by decide), h4.1, h4.2, h.2.2.2.2 rfl⟩

/-- C10: the `days` query parameter is converted with a bare `int(...)`
and never range-checked: a negative value is accepted and yields a
cutoff strictly in the future, so every entity timestamped at or before
`now` is excluded from the window; a non-integer value makes the parse
fail, surfacing as an unhandled error rather than a field-level
validation error. -/
theorem stats_days_bare_int_parse (db : DB) (pid : Nat) (now : Int)
    (u v : String) (d : Int)
    (hu : pyInt u = some d) (hd : d < 0) (hv : pyInt v = none) :
    statsEndpoint db pid now (some u) = .ok (projectStats db pid now d)
    ∧ now < statsCutoff now d
    ∧ (∀ e : Event, e.timestamp ≤ now →
        eventInWindow pid (statsCutoff now d) e = false)
    ∧ statsEndpoint db pid now (some v) = .unhandledError := by
  have hcut : now < statsCutoff now d := by
    have : d * 86400 < 0 := mul_neg_of_neg_of_pos hd (by norm_num)
    simp only [statsCutoff]
    omega
  refine ⟨?_, hcut, ?_, ?_⟩
  · simp [statsEndpoint, hu]
  · intro e he
    have hlt : ¬ (statsCutoff now d ≤ e.timestamp) := by omega
    simp [eventInWindow, hlt]
  · simp [statsEndpoint, hv]

/-- Witness for C10: `days=-5` is accepted and excludes the past-stamped
event, `days=abc` raises. -/
theorem stats_days_bare_int_parse_witness :
    statsEndpoint emptyDB 1 1000 (some "-5") =
      .ok (projectStats emptyDB 1 1000 (-5))
    ∧ 1000 < statsCutoff 1000 (-5)
    ∧ eventInWindow 1 (statsCutoff 1000 (-5)) pastEvent = false
    ∧ statsEndpoint emptyDB 1 1000 (some "abc") = .unhandledError := by
  have h := stats_days_bare_int_parse emptyDB 1 1000 "-5" "abc" (-5)
    (by decide) (by decide) (by decide)
  exact ⟨h.1, h.2.1, h.2.2.1 pastEvent (by decide), h.2.2.2⟩

/-- C1: the bundled creation is not all-or-nothing.  On the concrete
payload bundling only a Feedback sub-document, the Feedback insert fails
(NOT NULL `response` column, models.py:104), yet the Event row created
first remains in the store because `EventCreateSerializer.create`
(serializers.py:115-137) runs without a transaction wrapper. -/
theorem eventCreate_orphan_on_feedback_failure :
    (eventCreate emptyDB 100 payloadFb).2 =
      .error "IntegrityError: NOT NULL constraint failed: feedback.response"
    ∧ (eventCreate emptyDB 100 payloadFb).1.events =
      [{ id := 100, projectId := 1, sessionId := none,
         eventType := "user_feedback", timestamp := 0 }] := by
  exact ⟨rfl, rfl⟩

/-- C2: a bundle carrying a Feedback sub-document but no AIResponse does
not succeed with an unset response link — the insert fails and no
Feedback row is stored, because `Feedback.response` is a non-nullable
column. -/
theorem eventCreate_feedback_without_response_fails :
    (eventCreate emptyDB 100 payloadFb).1.feedbacks = []
    ∧ ∃ msg, (eventCreate emptyDB 100 payloadFb).2 = Except.error msg := by
  exact ⟨rfl, "IntegrityError: NOT NULL constraint failed: feedback.response", rfl⟩

end Analytics
